import Mathlib

/-!
Shallow embedding of the TaskManager report/scheduling subsystem
(backend/src/services/gemini.service.ts, report.service.ts,
scheduler.service.ts), with theorems checking the specification's
claims about it.

Conventions of the embedding:
* Machine timestamps are integer milliseconds (`Int`).
* A JavaScript `Date` in local time is modelled as a linear calendar
  day index plus milliseconds within the day (`Date.day`, `Date.msOfDay`);
  `setHours(0,0,0,0)`, `setHours(23,59,59,999)` and
  `setDate(getDate()-7)` act on those fields.  Daylight-saving shifts
  are not modelled.
* Locale-dependent date formatting (`toLocaleDateString`,
  `toISOString`) is an external library facility; the services are
  parameterised over a bundle of formatter functions.
* The external generative-AI client is modelled as an optional
  fallible completion function `String → Except String String`
  (`none` when no API key is configured); the prompts actually sent
  to it are collected in the result so that non-invocation is
  observable.
-/

namespace TaskManager

/-- A JS `Date` in local time: linear day index and milliseconds
within the day. -/
structure Date where
  day : Int
  msOfDay : Int
deriving Repr, DecidableEq

/-- Absolute milliseconds value of a `Date` (what JS comparison
operators compare). -/
def Date.toMs (d : Date) : Int := d.day * 86400000 + d.msOfDay

/-- `d.setHours(0, 0, 0, 0)`. -/
def Date.setStartOfDay (d : Date) : Date := { d with msOfDay := 0 }

/-- `d.setHours(23, 59, 59, 999)`. -/
def Date.setEndOfDay (d : Date) : Date := { d with msOfDay := 86399999 }

/-- `d.setDate(d.getDate() - n)`. -/
def Date.subDays (d : Date) (n : Int) : Date := { d with day := d.day - n }

/-- The locale/ISO formatting functions the services call on dates;
external library behaviour, taken as a parameter. -/
structure LocaleFormat where
  fmtLong : Date → String
  fmtShort : Date → String
  fmtShortYear : Date → String
  iso : Int → String

/-- `TaskSummaryInput` from gemini.service.ts. -/
structure TaskSummaryInput where
  title : String
  status : String
  priority : String
  project : String
  dueDate : Option String
  createdAt : String
  updatedAt : String
deriving Repr, DecidableEq

/-- `SummaryResult` from gemini.service.ts. -/
structure SummaryResult where
  summary : String
  isAIGenerated : Bool
deriving Repr, DecidableEq

/-- The weekly stats record passed to `generateWeeklySummary`. -/
structure WeeklyStats where
  created : Nat
  completed : Nat
  inProgress : Nat
  overdue : Nat
deriving Repr, DecidableEq

/-- The external completion call (`model.generateContent` followed by
`response.text()`), which may throw. -/
def CompletionModel : Type := String → Except String String

/-- Result of a summary-generation call together with the list of
prompts that were sent to the external completion service during the
call (empty when the service was never invoked). -/
structure GenOutcome where
  result : SummaryResult
  promptsSent : List String
deriving Repr, DecidableEq

/-- `GeminiService.buildDailySummaryPrompt`. -/
def buildDailySummaryPrompt (userName : String) (tasks : List TaskSummaryInput)
    (dateStr : String) : String :=
  let taskList := String.intercalate "\n"
    (tasks.map (fun t =>
      "- \"" ++ t.title ++ "\" (" ++ t.status ++ ", " ++ t.priority ++
        " priority, Project: " ++ t.project ++ ")"))
  "You are a helpful project management assistant. Generate a brief, professional daily summary (max 150 words) for "
    ++ userName ++ " about their tasks on " ++ dateStr ++ ".\n\nTasks:\n" ++ taskList
    ++ "\n\nWrite a natural, encouraging summary that:\n1. Highlights key accomplishments or focus areas\n2. Mentions any high-priority or overdue tasks\n3. Provides a positive yet realistic overview\n4. Uses professional but friendly tone\n\nDo not use bullet points or lists. Write in flowing paragraphs."

/-- `GeminiService.buildWeeklySummaryPrompt`; the task list is capped
at 30 entries (`tasks.slice(0, 30)`). -/
def buildWeeklySummaryPrompt (userName : String) (tasks : List TaskSummaryInput)
    (startStr endStr : String) (stats : WeeklyStats) : String :=
  let taskList := String.intercalate "\n"
    ((tasks.take 30).map (fun t =>
      "- \"" ++ t.title ++ "\" (" ++ t.status ++ ", " ++ t.priority ++
        ", Project: " ++ t.project ++ ")"))
  "You are a helpful project management assistant. Generate a concise weekly summary (max 200 words) for "
    ++ userName ++ " covering " ++ startStr ++ " - " ++ endStr
    ++ ".\n\nWeekly Stats:\n- Tasks Created: " ++ toString stats.created
    ++ "\n- Tasks Completed: " ++ toString stats.completed
    ++ "\n- Tasks In Progress: " ++ toString stats.inProgress
    ++ "\n- Overdue Tasks: " ++ toString stats.overdue
    ++ "\n\nNotable Tasks:\n" ++ taskList
    ++ "\n\nWrite a natural, insightful summary that:\n1. Celebrates completed work and productivity trends\n2. Identifies areas needing attention (overdue items)\n3. Provides encouragement and actionable insights\n4. Compares workload balance (created vs completed)\n\nDo not use bullet points or lists. Write in flowing paragraphs with a professional but motivating tone."

/-- `GeminiService.generateFallbackDailySummary`, transcribed with the
source's sequential `summary += ...` accumulation. -/
def generateFallbackDailySummary (userName : String) (tasks : List TaskSummaryInput)
    (dateStr : String) : SummaryResult :=
  let completed := (tasks.filter (fun t => t.status == "DONE")).length
  let inProgress := (tasks.filter (fun t => t.status == "IN_PROGRESS")).length
  let highPriority :=
    (tasks.filter (fun t => t.priority == "HIGH" || t.priority == "CRITICAL")).length
  let summary := "Here\x27s your daily summary for " ++ dateStr ++ ". "
  let summary :=
    if tasks.length == 0 then
      summary ++ "You have no tasks assigned for today. Consider reviewing your backlog or checking in with your team."
    else
      let summary := summary ++ "You have " ++ toString tasks.length ++ " total task"
        ++ (if tasks.length == 1 then "" else "s") ++ ". "
      let summary :=
        if completed > 0 then
          summary ++ "Great work completing " ++ toString completed ++ " task"
            ++ (if completed == 1 then "" else "s") ++ "! "
        else summary
      let summary :=
        if inProgress > 0 then
          summary ++ toString inProgress ++ " task"
            ++ (if inProgress == 1 then " is" else "s are") ++ " currently in progress. "
        else summary
      if highPriority > 0 then
        summary ++ "Note: " ++ toString highPriority ++ " high-priority task"
          ++ (if highPriority == 1 then "" else "s") ++ " need"
          ++ (if highPriority == 1 then "s" else "") ++ " attention."
      else summary
  { summary := summary, isAIGenerated := false }

/-- `GeminiService.generateFallbackWeeklySummary`, transcribed with the
source's sequential `summary += ...` accumulation. -/
def generateFallbackWeeklySummary (userName : String) (tasks : List TaskSummaryInput)
    (startStr endStr : String) (stats : WeeklyStats) : SummaryResult :=
  let summary := "Weekly summary for " ++ startStr ++ " - " ++ endStr ++ ". "
  let summary :=
    if stats.completed > 0 then
      summary ++ "You completed " ++ toString stats.completed ++ " task"
        ++ (if stats.completed == 1 then "" else "s") ++ " this week - nice work! "
    else summary
  let summary :=
    if stats.created > 0 then
      summary ++ toString stats.created ++ " new task"
        ++ (if stats.created == 1 then " was" else "s were") ++ " created. "
    else summary
  let summary :=
    if stats.inProgress > 0 then
      summary ++ toString stats.inProgress ++ " task"
        ++ (if stats.inProgress == 1 then " is" else "s are") ++ " currently in progress. "
    else summary
  let summary :=
    if stats.overdue > 0 then
      summary ++ "Heads up: " ++ toString stats.overdue ++ " task"
        ++ (if stats.overdue == 1 then " is" else "s are")
        ++ " overdue and may need immediate attention. "
    else summary
  let summary :=
    if stats.completed == 0 && tasks.length > 0 then
      summary ++ "Focus on completing in-progress tasks to maintain momentum."
    else if tasks.length == 0 then
      summary ++ "No active tasks this week. Check your project backlogs for upcoming work."
    else summary
  { summary := summary, isAIGenerated := false }

/-- `GeminiService.generateDailySummary`: formats the date, short-circuits
to the fallback when no model is configured or the task list is empty,
otherwise sends the prompt and falls back on error. -/
def generateDailySummary (model : Option CompletionModel) (fmt : LocaleFormat)
    (userName : String) (tasks : List TaskSummaryInput) (date : Date) : GenOutcome :=
  let dateStr := fmt.fmtLong date
  match model with
  | none =>
    { result := generateFallbackDailySummary userName tasks dateStr, promptsSent := [] }
  | some complete =>
    if tasks.length == 0 then
      { result := generateFallbackDailySummary userName tasks dateStr, promptsSent := [] }
    else
      let prompt := buildDailySummaryPrompt userName tasks dateStr
      match complete prompt with
      | .ok text =>
        { result := { summary := text.trim, isAIGenerated := true }, promptsSent := [prompt] }
      | .error _ =>
        { result := generateFallbackDailySummary userName tasks dateStr,
          promptsSent := [prompt] }

/-- `GeminiService.generateWeeklySummary`: same structure as the daily
variant, with the date-range strings and the stats record. -/
def generateWeeklySummary (model : Option CompletionModel) (fmt : LocaleFormat)
    (userName : String) (tasks : List TaskSummaryInput) (startDate endDate : Date)
    (stats : WeeklyStats) : GenOutcome :=
  let startStr := fmt.fmtShort startDate
  let endStr := fmt.fmtShortYear endDate
  match model with
  | none =>
    { result := generateFallbackWeeklySummary userName tasks startStr endStr stats,
      promptsSent := [] }
  | some complete =>
    if tasks.length == 0 then
      { result := generateFallbackWeeklySummary userName tasks startStr endStr stats,
        promptsSent := [] }
    else
      let prompt := buildWeeklySummaryPrompt userName tasks startStr endStr stats
      match complete prompt with
      | .ok text =>
        { result := { summary := text.trim, isAIGenerated := true }, promptsSent := [prompt] }
      | .error _ =>
        { result := generateFallbackWeeklySummary userName tasks startStr endStr stats,
          promptsSent := [prompt] }

/-- Substring occurrence test on character lists: does the second list
start with the first? -/
def isPrefixOfChars : List Char → List Char → Bool
  | [], _ => true
  | _ :: _, [] => false
  | a :: as, b :: bs => a == b && isPrefixOfChars as bs

/-- Does `sub` occur (contiguously) anywhere in the second list? -/
def containsSubChars (sub : List Char) : List Char → Bool
  | [] => isPrefixOfChars sub []
  | c :: cs => isPrefixOfChars sub (c :: cs) || containsSubChars sub cs

/-- Does string `s` contain `sub` as a substring? -/
def containsSub (s sub : String) : Bool := containsSubChars sub.data s.data

/-- A row of the `User` table (fields the report/scheduler pipeline reads). -/
structure User where
  id : String
  email : String
  name : String
  role : String
  isVerified : Bool
deriving Repr, DecidableEq

/-- A row of the `Project` table, with its member user-ids denormalised. -/
structure Project where
  id : String
  name : String
  ownerId : String
  memberIds : List String
deriving Repr, DecidableEq

/-- A row of the `Task` table (fields the report pipeline reads);
timestamps in integer milliseconds. -/
structure Task where
  id : String
  title : String
  status : String
  priority : String
  projectId : String
  assigneeId : Option String
  reporterId : Option String
  dueDate : Option Int
  createdAt : Int
  updatedAt : Int
deriving Repr, DecidableEq

/-- The task snapshot embedded in `ReportData` (dates rendered to
strings, project resolved to its name). -/
structure TaskSnapshot where
  id : String
  title : String
  status : String
  priority : String
  project : String
  dueDate : Option String
  createdAt : String
  updatedAt : String
deriving Repr, DecidableEq

/-- `ReportData` from report.service.ts. -/
structure ReportData where
  created : Nat
  completed : Nat
  inProgress : Nat
  overdue : Nat
  tasks : List TaskSnapshot
deriving Repr, DecidableEq

/-- The stored-plus-returned report record produced by the generate
operations (persistence of the record is the storage collaborator's
job; the generated id/timestamp are omitted). -/
structure ReportOutcome where
  type : String
  summary : String
  isAIGenerated : Bool
  data : ReportData
deriving Repr

/-- The database and external collaborators a report call reads:
user/project/task tables, the optional completion model, the locale
formatters. -/
structure Env where
  users : List User
  projects : List Project
  tasks : List Task
  model : Option CompletionModel
  fmt : LocaleFormat

/-- The project-visibility query of `generateDailyReport` /
`generateWeeklyReport`: projects the user owns or is a member of. -/
def visibleProjectIds (projects : List Project) (userId : String) : List String :=
  (projects.filter (fun p => p.ownerId == userId || p.memberIds.contains userId)).map
    (fun p => p.id)

/-- Insert a task into a list kept in descending `updatedAt` order. -/
def insertByUpdatedAtDesc (t : Task) : List Task → List Task
  | [] => [t]
  | u :: us =>
    if u.updatedAt ≤ t.updatedAt then t :: u :: us else u :: insertByUpdatedAtDesc t us

/-- `orderBy: { updatedAt: 'desc' }` on the task query. -/
def sortByUpdatedAtDesc : List Task → List Task
  | [] => []
  | t :: ts => insertByUpdatedAtDesc t (sortByUpdatedAtDesc ts)

/-- The task query of the report generators: tasks in a visible project
where the user is assignee or reporter, newest-updated first. -/
def userTasks (tasks : List Task) (projectIds : List String) (userId : String) :
    List Task :=
  sortByUpdatedAtDesc (tasks.filter (fun t =>
    projectIds.contains t.projectId &&
      (t.assigneeId == some userId || t.reporterId == some userId)))

/-- The statistics block shared verbatim by `generateDailyReport`
(lines 69–90) and `generateWeeklyReport` (lines 169–190): the four
counts plus the snapshot list. -/
def computeReportData (fmt : LocaleFormat) (projects : List Project)
    (tasks : List Task) (windowStart windowEnd now : Date) : ReportData :=
  { created := (tasks.filter (fun t =>
      windowStart.toMs ≤ t.createdAt && t.createdAt ≤ windowEnd.toMs)).length
    completed := (tasks.filter (fun t =>
      t.status == "DONE" && (windowStart.toMs ≤ t.updatedAt && t.updatedAt ≤ windowEnd.toMs))).length
    inProgress := (tasks.filter (fun t => t.status == "IN_PROGRESS")).length
    overdue := (tasks.filter (fun t =>
      (match t.dueDate with
        | some due => due < now.toMs
        | none => false) && t.status != "DONE")).length
    tasks := tasks.map (fun t =>
      { id := t.id
        title := t.title
        status := t.status
        priority := t.priority
        project := (((projects.find? (fun p => p.id == t.projectId)).map
          (fun p => p.name)).getD "")
        dueDate := t.dueDate.map fmt.iso
        createdAt := fmt.iso t.createdAt
        updatedAt := fmt.iso t.updatedAt }) }

/-- Rebuild the `TaskSummaryInput` the orchestrator passes to the
summary generator from a snapshot. -/
def snapshotToSummaryInput (t : TaskSnapshot) : TaskSummaryInput :=
  { title := t.title
    status := t.status
    priority := t.priority
    project := t.project
    dueDate := t.dueDate
    createdAt := t.createdAt
    updatedAt := t.updatedAt }

/-- `ReportService.generateDailyReport`: window = target date truncated
to start-of-day through end-of-day; throws `'User not found'` when the
user id does not resolve; otherwise aggregates, summarises and returns
the record.  `now` is the clock reading during the call. -/
def generateDailyReport (env : Env) (userId : String) (date : Option Date)
    (now : Date) : Except String ReportOutcome :=
  let targetDate := date.getD now
  let startOfDay := targetDate.setStartOfDay
  let endOfDay := targetDate.setEndOfDay
  match env.users.find? (fun u => u.id == userId) with
  | none => .error "User not found"
  | some user =>
    let projectIds := visibleProjectIds env.projects userId
    let tasks := userTasks env.tasks projectIds userId
    let data := computeReportData env.fmt env.projects tasks startOfDay endOfDay now
    let gen := generateDailySummary env.model env.fmt user.name
      (data.tasks.map snapshotToSummaryInput) targetDate
    .ok { type := "DAILY"
          summary := gen.result.summary
          isAIGenerated := gen.result.isAIGenerated
          data := data }

/-- `ReportService.generateWeeklyReport`: window = end date minus seven
days truncated to start-of-day, through the end date extended to
end-of-day; otherwise the same composition as the daily variant. -/
def generateWeeklyReport (env : Env) (userId : String) (weekEndDate : Option Date)
    (now : Date) : Except String ReportOutcome :=
  let endDate0 := weekEndDate.getD now
  let startDate := (endDate0.subDays 7).setStartOfDay
  let endDate := endDate0.setEndOfDay
  match env.users.find? (fun u => u.id == userId) with
  | none => .error "User not found"
  | some user =>
    let projectIds := visibleProjectIds env.projects userId
    let tasks := userTasks env.tasks projectIds userId
    let data := computeReportData env.fmt env.projects tasks startDate endDate now
    let gen := generateWeeklySummary env.model env.fmt user.name
      (data.tasks.map snapshotToSummaryInput) startDate endDate
      { created := data.created
        completed := data.completed
        inProgress := data.inProgress
        overdue := data.overdue }
    .ok { type := "WEEKLY"
          summary := gen.result.summary
          isAIGenerated := gen.result.isAIGenerated
          data := data }

/-- A task row of the rendered email. -/
structure EmailTaskRow where
  title : String
  status : String
  project : String
  id : String
deriving Repr, DecidableEq

/-- JS `String.replace(pat, repl)` with a string pattern: replaces only
the first occurrence. -/
def replaceFirst (s pat repl : String) : String :=
  match s.splitOn pat with
  | [] => s
  | [_] => s
  | h :: rest => h ++ repl ++ String.intercalate pat rest

/-- Arguments of a `sendDailySummary` mailer call. -/
structure DailyEmailPayload where
  toAddr : String
  name : String
  summary : String
  tasks : List EmailTaskRow
deriving Repr, DecidableEq

/-- Arguments of a `sendWeeklySummary` mailer call. -/
structure WeeklyEmailPayload where
  toAddr : String
  name : String
  summary : String
  stats : WeeklyStats
  tasks : List EmailTaskRow
deriving Repr, DecidableEq

/-- `ReportService.sendDailyReportEmail`: generates the report (which
throws for a missing user), then looks the user up a second time and
silently returns (`none`: no mailer call) when that lookup fails.
`usersAtSend` is the user table as observed by the second lookup, which
runs after the awaited generation and so may differ from `env.users`. -/
def sendDailyReportEmail (env : Env) (usersAtSend : List User) (userId : String)
    (now : Date) : Except String (Option DailyEmailPayload) :=
  match generateDailyReport env userId none now with
  | .error e => .error e
  | .ok report =>
    match usersAtSend.find? (fun u => u.id == userId) with
    | none => .ok none
    | some user =>
      .ok (some
        { toAddr := user.email
          name := user.name
          summary := report.summary
          tasks := (report.data.tasks.take 10).map (fun t =>
            { title := t.title
              status := replaceFirst t.status "_" " "
              project := t.project
              id := t.id }) })

/-- `ReportService.sendWeeklyReportEmail`: weekly analogue of
`sendDailyReportEmail` (first 20 task rows, stats included). -/
def sendWeeklyReportEmail (env : Env) (usersAtSend : List User) (userId : String)
    (now : Date) : Except String (Option WeeklyEmailPayload) :=
  match generateWeeklyReport env userId none now with
  | .error e => .error e
  | .ok report =>
    match usersAtSend.find? (fun u => u.id == userId) with
    | none => .ok none
    | some user =>
      .ok (some
        { toAddr := user.email
          name := user.name
          summary := report.summary
          stats :=
            { created := report.data.created
              completed := report.data.completed
              inProgress := report.data.inProgress
              overdue := report.data.overdue }
          tasks := (report.data.tasks.take 20).map (fun t =>
            { title := t.title
              status := replaceFirst t.status "_" " "
              project := t.project
              id := t.id }) })

/-- Aggregate counts of a scheduler batch run, plus the ids of the
users the loop attempted, in order. -/
structure BatchResult where
  success : Nat
  failed : Nat
  attempted : List String
deriving Repr, DecidableEq

/-- The per-user try/catch loop shared verbatim by the two batch
methods: every listed user is attempted; a throwing send increments
`failed`, a returning send increments `success`; the loop never
aborts.  `send` abstracts the awaited per-user
`reportService.send*ReportEmail` call. -/
def runBatch (send : String → Except String Unit) : List User → BatchResult
  | [] => { success := 0, failed := 0, attempted := [] }
  | u :: rest =>
    let r := runBatch send rest
    match send u.id with
    | .ok _ => { success := r.success + 1, failed := r.failed, attempted := u.id :: r.attempted }
    | .error _ => { success := r.success, failed := r.failed + 1, attempted := u.id :: r.attempted }

/-- `SchedulerService.generateDailyReportsForAllUsers`: queries the
verified users and runs the batch loop over them. -/
def generateDailyReportsForAllUsers (allUsers : List User)
    (sendDaily : String → Except String Unit) : BatchResult :=
  runBatch sendDaily (allUsers.filter (fun u => u.isVerified))

/-- `SchedulerService.generateWeeklyReportsForAllUsers`: identical loop
with the weekly send. -/
def generateWeeklyReportsForAllUsers (allUsers : List User)
    (sendWeekly : String → Except String Unit) : BatchResult :=
  runBatch sendWeekly (allUsers.filter (fun u => u.isVerified))

/-- A scheduled task registered with the cron module: its handle id and
its cron expression. -/
structure CronTask where
  id : Nat
  expr : String
deriving Repr, DecidableEq

/-- The cron module's registry of live scheduled tasks.  A task created
by `cron.schedule` stays live until `.stop()` is called on its handle,
whether or not the creator keeps the handle. -/
structure CronRegistry where
  active : List CronTask
  nextId : Nat
deriving Repr, DecidableEq

/-- `cron.schedule(expr, cb)`: registers a new live task and returns
its handle id. -/
def cronSchedule (reg : CronRegistry) (expr : String) : CronRegistry × Nat :=
  ({ active := reg.active ++ [{ id := reg.nextId, expr := expr }]
     nextId := reg.nextId + 1 }, reg.nextId)

/-- `handle.stop()`: deactivates the task with that handle id. -/
def cronStop (reg : CronRegistry) (id : Nat) : CronRegistry :=
  { reg with active := reg.active.filter (fun t => t.id != id) }

/-- The scheduler service's two job-handle fields. -/
structure SchedulerState where
  dailyJob : Option Nat
  weeklyJob : Option Nat
deriving Repr, DecidableEq

/-- The daily trigger's cron expression (6 PM every day). -/
def dailyCronExpr : String := "0 18 * * *"

/-- The weekly trigger's cron expression (6 PM every Friday). -/
def weeklyCronExpr : String := "0 18 * * 5"

/-- `SchedulerService.start`: unconditionally schedules a new daily and
a new weekly cron task and overwrites the handle fields with the new
handles (the source does not stop previously registered tasks). -/
def SchedulerService.start (s : SchedulerState) (reg : CronRegistry) :
    SchedulerState × CronRegistry :=
  let (reg1, dailyId) := cronSchedule reg dailyCronExpr
  let (reg2, weeklyId) := cronSchedule reg1 weeklyCronExpr
  ({ dailyJob := some dailyId, weeklyJob := some weeklyId }, reg2)

/-- `SchedulerService.stop`: stops whichever jobs the handle fields
point at and clears the fields. -/
def SchedulerService.stop (s : SchedulerState) (reg : CronRegistry) :
    SchedulerState × CronRegistry :=
  let reg1 := match s.dailyJob with
    | some id => cronStop reg id
    | none => reg
  let reg2 := match s.weeklyJob with
    | some id => cronStop reg1 id
    | none => reg1
  ({ dailyJob := none, weeklyJob := none }, reg2)

/-- How many times each verified user's send operation is invoked when
the daily calendar trigger fires: every live task registered under the
daily cron expression runs the batch once, and each batch run attempts
each verified user exactly once (see the batch-loop theorems). -/
def sendsPerUserPerDailyFiring (reg : CronRegistry) : Nat :=
  (reg.active.filter (fun t => t.expr == dailyCronExpr)).length

/-- The daily fallback template as the spec describes it: opens with
the formatted date; with zero tasks, the none-assigned sentence and
nothing else; otherwise the total count, then a completed clause, an
in-progress clause and a high/critical-priority attention clause, each
present exactly when its count is positive.  Refinement target for the
template claims; compare `generateFallbackDailySummary`. -/
def specDescribedDailyFallback (tasks : List TaskSummaryInput) (dateStr : String) : String :=
  let completed := (tasks.filter (fun t => t.status == "DONE")).length
  let inProgress := (tasks.filter (fun t => t.status == "IN_PROGRESS")).length
  let highPriority :=
    (tasks.filter (fun t => t.priority == "HIGH" || t.priority == "CRITICAL")).length
  "Here\x27s your daily summary for " ++ dateStr ++ ". " ++
    (if tasks.length == 0 then
      "You have no tasks assigned for today. Consider reviewing your backlog or checking in with your team."
    else
      "You have " ++ toString tasks.length ++ " total task"
        ++ (if tasks.length == 1 then "" else "s") ++ ". "
      ++ (if completed > 0 then
            "Great work completing " ++ toString completed ++ " task"
              ++ (if completed == 1 then "" else "s") ++ "! "
          else "")
      ++ (if inProgress > 0 then
            toString inProgress ++ " task"
              ++ (if inProgress == 1 then " is" else "s are") ++ " currently in progress. "
          else "")
      ++ (if highPriority > 0 then
            "Note: " ++ toString highPriority ++ " high-priority task"
              ++ (if highPriority == 1 then "" else "s") ++ " need"
              ++ (if highPriority == 1 then "s" else "") ++ " attention."
          else ""))

/-- The weekly fallback template as the spec describes it: opens with
the date range; clauses for completed, created, in-progress and
overdue, in that order, each present exactly when its count is
positive; a closing sentence chosen by: momentum-encouragement when
nothing was completed but tasks exist, check-backlog when the task
list is empty, none otherwise.  Refinement target for the template
claims; compare `generateFallbackWeeklySummary`. -/
def specDescribedWeeklyFallback (tasks : List TaskSummaryInput)
    (startStr endStr : String) (stats : WeeklyStats) : String :=
  "Weekly summary for " ++ startStr ++ " - " ++ endStr ++ ". "
    ++ (if stats.completed > 0 then
          "You completed " ++ toString stats.completed ++ " task"
            ++ (if stats.completed == 1 then "" else "s") ++ " this week - nice work! "
        else "")
    ++ (if stats.created > 0 then
          toString stats.created ++ " new task"
            ++ (if stats.created == 1 then " was" else "s were") ++ " created. "
        else "")
    ++ (if stats.inProgress > 0 then
          toString stats.inProgress ++ " task"
            ++ (if stats.inProgress == 1 then " is" else "s are") ++ " currently in progress. "
        else "")
    ++ (if stats.overdue > 0 then
          "Heads up: " ++ toString stats.overdue ++ " task"
            ++ (if stats.overdue == 1 then " is" else "s are")
            ++ " overdue and may need immediate attention. "
        else "")
    ++ (if stats.completed == 0 && tasks.length > 0 then
          "Focus on completing in-progress tasks to maintain momentum."
        else if tasks.length == 0 then
          "No active tasks this week. Check your project backlogs for upcoming work."
        else "")

/-! Concrete fixtures used by the claim theorems and their witnesses. -/

/-- A concrete formatter bundle for evaluating the services on
concrete inputs. -/
def wFmt : LocaleFormat :=
  { fmtLong := fun _ => "Monday, January 1, 2024"
    fmtShort := fun _ => "Jan 1"
    fmtShortYear := fun _ => "Jan 8, 2024"
    iso := fun ms => toString ms }

/-- A completion model that always throws. -/
def wErrModel : CompletionModel := fun _ => Except.error "Gemini API error"

/-- A concrete summary-input task. -/
def mkSummaryTask (title status priority : String) : TaskSummaryInput :=
  { title := title
    status := status
    priority := priority
    project := "Platform"
    dueDate := none
    createdAt := "2024-01-01T00:00:00.000Z"
    updatedAt := "2024-01-01T00:00:00.000Z" }

/-- Daily-template example: 3 tasks, 2 done, 1 in progress, none
high/critical priority. -/
def c8Tasks : List TaskSummaryInput :=
  [mkSummaryTask "Draft release notes" "DONE" "LOW",
   mkSummaryTask "Review sprint board" "DONE" "MEDIUM",
   mkSummaryTask "Fix login redirect" "IN_PROGRESS" "LOW"]

/-- Weekly-template example: a non-empty task list. -/
def c9Tasks : List TaskSummaryInput :=
  [mkSummaryTask "Fix login redirect" "IN_PROGRESS" "LOW"]

/-- A verified user with the given id. -/
def mkUser (id : String) : User :=
  { id := id
    email := id ++ "@example.com"
    name := id
    role := "MEMBER"
    isVerified := true }

/-- Three verified users for the batch-isolation example. -/
def wUsersABC : List User := [mkUser "A", mkUser "B", mkUser "C"]

/-- A per-user send that throws exactly for user B. -/
def wSendFailB : String → Except String Unit :=
  fun uid => if uid == "B" then Except.error "SMTP connection refused" else Except.ok ()

/-- Fresh scheduler service state (no jobs held). -/
def freshScheduler : SchedulerState := { dailyJob := none, weeklyJob := none }

/-- Fresh cron registry (no live tasks). -/
def emptyCron : CronRegistry := { active := [], nextId := 0 }

/-- The scheduler state and cron registry after two `start()` calls
with no intervening `stop()`. -/
def startTwice : SchedulerState × CronRegistry :=
  let s1 := SchedulerService.start freshScheduler emptyCron
  SchedulerService.start s1.1 s1.2

/-- A concrete verified user `u1`. -/
def wUserU1 : User :=
  { id := "u1", email := "u1@example.com", name := "Riley", role := "MEMBER", isVerified := true }

/-- An environment whose user table is empty. -/
def envNoUsers : Env :=
  { users := [], projects := [], tasks := [], model := none, fmt := wFmt }

/-- An environment containing only user `u1` and nothing else. -/
def c6EnvU1 : Env :=
  { users := [wUserU1], projects := [], tasks := [], model := none, fmt := wFmt }

/-- Requested week-end date for the weekly-window example. -/
def c7End : Date := ⟨20000, 43000000⟩

/-- Clock reading during the weekly-window example. -/
def c7Now : Date := ⟨20000, 50000000⟩

/-- A project owned by `u1`. -/
def c7Project : Project :=
  { id := "p1", name := "Platform", ownerId := "u1", memberIds := [] }

/-- A DONE task of `u1` whose `updatedAt` is exactly the window-end
millisecond of the week ending on `c7End`. -/
def c7Task : Task :=
  { id := "t1"
    title := "Ship weekly digest"
    status := "DONE"
    priority := "MEDIUM"
    projectId := "p1"
    assigneeId := some "u1"
    reporterId := none
    dueDate := none
    createdAt := 1727000000000
    updatedAt := 20000 * 86400000 + 86399999 }

/-- Environment for the weekly-window example. -/
def c7Env : Env :=
  { users := [wUserU1], projects := [c7Project], tasks := [c7Task], model := none, fmt := wFmt }

/-! Helper lemmas about the scheduler's batch loop. -/

/-- Every run of the batch loop accounts for every listed user:
successes and failures sum to the list length. -/
theorem runBatch_counts (send : String → Except String Unit) (users : List User) :
    (runBatch send users).success + (runBatch send users).failed = users.length := by
  induction users with
  | nil => rfl
  | cons u rest ih =>
    simp only [runBatch]
    cases h : send u.id <;> simp only [List.length_cons] <;> omega

/-- The failure count is exactly the number of listed users whose send
throws. -/
theorem runBatch_failed (send : String → Except String Unit) (users : List User) :
    (runBatch send users).failed
      = (users.filter (fun u =>
          match send u.id with
          | .error _ => true
          | .ok _ => false)).length := by
  induction users with
  | nil => rfl
  | cons u rest ih =>
    simp only [runBatch, List.filter]
    cases h : send u.id <;> simp [h, ih]

/-- The loop attempts every listed user, in order, regardless of which
sends throw. -/
theorem runBatch_attempted (send : String → Except String Unit) (users : List User) :
    (runBatch send users).attempted = users.map (fun u => u.id) := by
  induction users with
  | nil => rfl
  | cons u rest ih =>
    simp only [runBatch, List.map]
    cases h : send u.id <;> simp [h, ih]

/-- C10: the deterministic daily and weekly fallback generators ignore
the `userName` argument entirely: two invocations differing only in
the user's name return identical summary text and `isAIGenerated`
flag. -/
theorem c10_fallback_independent_of_username (u1 u2 : String)
    (tasks : List TaskSummaryInput) (dateStr startStr endStr : String)
    (stats : WeeklyStats) :
    generateFallbackDailySummary u1 tasks dateStr
        = generateFallbackDailySummary u2 tasks dateStr
    ∧ generateFallbackWeeklySummary u1 tasks startStr endStr stats
        = generateFallbackWeeklySummary u2 tasks startStr endStr stats :=
  ⟨rfl, rfl⟩

/-- C4: with an empty task list the summary generators return the
deterministic fallback with `isAIGenerated = false` and send no prompt
to the external completion service, whatever model is configured; the
same short-circuit applies for any task list when no model is
configured. -/
theorem c4_empty_or_unconfigured_short_circuit (model : Option CompletionModel)
    (fmt : LocaleFormat) (userName : String) (tasks : List TaskSummaryInput)
    (date startDate endDate : Date) (stats : WeeklyStats) :
    generateDailySummary model fmt userName [] date
        = { result := generateFallbackDailySummary userName [] (fmt.fmtLong date)
            promptsSent := [] }
    ∧ (generateDailySummary model fmt userName [] date).result.isAIGenerated = false
    ∧ generateWeeklySummary model fmt userName [] startDate endDate stats
        = { result := generateFallbackWeeklySummary userName []
              (fmt.fmtShort startDate) (fmt.fmtShortYear endDate) stats
            promptsSent := [] }
    ∧ (generateWeeklySummary model fmt userName [] startDate endDate stats).result.isAIGenerated
        = false
    ∧ generateDailySummary none fmt userName tasks date
        = { result := generateFallbackDailySummary userName tasks (fmt.fmtLong date)
            promptsSent := [] }
    ∧ generateWeeklySummary none fmt userName tasks startDate endDate stats
        = { result := generateFallbackWeeklySummary userName tasks
              (fmt.fmtShort startDate) (fmt.fmtShortYear endDate) stats
            promptsSent := [] } := by
  cases model <;> exact ⟨rfl, rfl, rfl, rfl, rfl, rfl⟩

/-- C2: the scheduler's daily and weekly batch runs attempt the
per-user send for every verified user even when some sends throw; the
counts satisfy success + failed = number of verified users, with
failed equal to the number of throwing sends; and for the concrete
three-user run where only B's send throws the result is
{success := 2, failed := 1} with A, B and C all attempted. -/
theorem c2_batch_failure_isolation (allUsers : List User)
    (send : String → Except String Unit) :
    (generateDailyReportsForAllUsers allUsers send).success
        + (generateDailyReportsForAllUsers allUsers send).failed
        = (allUsers.filter (fun u => u.isVerified)).length
    ∧ (generateDailyReportsForAllUsers allUsers send).failed
        = ((allUsers.filter (fun u => u.isVerified)).filter (fun u =>
            match send u.id with
            | .error _ => true
            | .ok _ => false)).length
    ∧ (generateDailyReportsForAllUsers allUsers send).attempted
        = (allUsers.filter (fun u => u.isVerified)).map (fun u => u.id)
    ∧ (generateWeeklyReportsForAllUsers allUsers send).success
        + (generateWeeklyReportsForAllUsers allUsers send).failed
        = (allUsers.filter (fun u => u.isVerified)).length
    ∧ (generateWeeklyReportsForAllUsers allUsers send).failed
        = ((allUsers.filter (fun u => u.isVerified)).filter (fun u =>
            match send u.id with
            | .error _ => true
            | .ok _ => false)).length
    ∧ (generateWeeklyReportsForAllUsers allUsers send).attempted
        = (allUsers.filter (fun u => u.isVerified)).map (fun u => u.id)
    ∧ generateDailyReportsForAllUsers wUsersABC wSendFailB
        = { success := 2, failed := 1, attempted := ["A", "B", "C"] } :=
  ⟨runBatch_counts send _, runBatch_failed send _, runBatch_attempted send _,
   runBatch_counts send _, runBatch_failed send _, runBatch_attempted send _,
   by decide⟩

/-- C3: the aggregation's overdue count equals the number of tasks
with a due date set, due strictly before the generation-time clock,
and status not DONE; it does not depend on the requested window at
all (any two windows give the same overdue count). -/
theorem c3_overdue_is_window_independent (fmt : LocaleFormat)
    (projects : List Project) (tasks : List Task) (ws we ws2 we2 now : Date) :
    (computeReportData fmt projects tasks ws we now).overdue
        = (tasks.filter (fun t =>
            t.dueDate.any (fun due => due < now.toMs) && !(t.status == "DONE"))).length
    ∧ (computeReportData fmt projects tasks ws we now).overdue
        = (computeReportData fmt projects tasks ws2 we2 now).overdue := by
  constructor
  · have hpred : ∀ t : Task,
        ((match t.dueDate with
          | some due => decide (due < now.toMs)
          | none => false) && t.status != "DONE")
          = (t.dueDate.any (fun due => decide (due < now.toMs)) && !(t.status == "DONE")) := by
      intro t
      cases t.dueDate <;> rfl
    simp only [computeReportData]
    exact congrArg List.length (List.filter_congr (fun t _ => hpred t))
  · rfl

/-- C1: with a configured completion model and a non-empty task list,
if the external completion call throws then `generateDailySummary` and
`generateWeeklySummary` still return (no error escapes: they are total
with result type `GenOutcome`), the returned text is exactly the
deterministic fallback for the same inputs, and `isAIGenerated` is
false; the one prompt that was sent is recorded. -/
theorem c1_completion_error_falls_back (complete : CompletionModel)
    (fmt : LocaleFormat) (userName : String) (t0 : TaskSummaryInput)
    (rest : List TaskSummaryInput) (date startDate endDate : Date)
    (stats : WeeklyStats) (errD errW : String)
    (hD : complete (buildDailySummaryPrompt userName (t0 :: rest) (fmt.fmtLong date))
        = .error errD)
    (hW : complete (buildWeeklySummaryPrompt userName (t0 :: rest)
        (fmt.fmtShort startDate) (fmt.fmtShortYear endDate) stats) = .error errW) :
    generateDailySummary (some complete) fmt userName (t0 :: rest) date
        = { result := generateFallbackDailySummary userName (t0 :: rest) (fmt.fmtLong date)
            promptsSent := [buildDailySummaryPrompt userName (t0 :: rest) (fmt.fmtLong date)] }
    ∧ (generateDailySummary (some complete) fmt userName (t0 :: rest) date).result.isAIGenerated
        = false
    ∧ generateWeeklySummary (some complete) fmt userName (t0 :: rest) startDate endDate stats
        = { result := generateFallbackWeeklySummary userName (t0 :: rest)
              (fmt.fmtShort startDate) (fmt.fmtShortYear endDate) stats
            promptsSent := [buildWeeklySummaryPrompt userName (t0 :: rest)
              (fmt.fmtShort startDate) (fmt.fmtShortYear endDate) stats] }
    ∧ (generateWeeklySummary (some complete) fmt userName (t0 :: rest) startDate endDate
        stats).result.isAIGenerated = false := by
  refine ⟨?_, ?_, ?_, ?_⟩ <;>
    simp [generateDailySummary, generateWeeklySummary, hD, hW,
      generateFallbackDailySummary, generateFallbackWeeklySummary]

/-- Witness for C1 at concrete inputs: a one-task list, a model that
always throws. -/
theorem c1_completion_error_falls_back_witness :
    generateDailySummary (some wErrModel) wFmt "Alice"
        [mkSummaryTask "Fix login redirect" "IN_PROGRESS" "HIGH"] ⟨19723, 0⟩
        = { result := generateFallbackDailySummary "Alice"
              [mkSummaryTask "Fix login redirect" "IN_PROGRESS" "HIGH"]
              (wFmt.fmtLong ⟨19723, 0⟩)
            promptsSent := [buildDailySummaryPrompt "Alice"
              [mkSummaryTask "Fix login redirect" "IN_PROGRESS" "HIGH"]
              (wFmt.fmtLong ⟨19723, 0⟩)] }
    ∧ (generateDailySummary (some wErrModel) wFmt "Alice"
        [mkSummaryTask "Fix login redirect" "IN_PROGRESS" "HIGH"]
        ⟨19723, 0⟩).result.isAIGenerated = false
    ∧ generateWeeklySummary (some wErrModel) wFmt "Alice"
        [mkSummaryTask "Fix login redirect" "IN_PROGRESS" "HIGH"] ⟨19716, 0⟩ ⟨19723, 0⟩
        ⟨5, 0, 2, 1⟩
        = { result := generateFallbackWeeklySummary "Alice"
              [mkSummaryTask "Fix login redirect" "IN_PROGRESS" "HIGH"]
              (wFmt.fmtShort ⟨19716, 0⟩) (wFmt.fmtShortYear ⟨19723, 0⟩) ⟨5, 0, 2, 1⟩
            promptsSent := [buildWeeklySummaryPrompt "Alice"
              [mkSummaryTask "Fix login redirect" "IN_PROGRESS" "HIGH"]
              (wFmt.fmtShort ⟨19716, 0⟩) (wFmt.fmtShortYear ⟨19723, 0⟩) ⟨5, 0, 2, 1⟩] }
    ∧ (generateWeeklySummary (some wErrModel) wFmt "Alice"
        [mkSummaryTask "Fix login redirect" "IN_PROGRESS" "HIGH"] ⟨19716, 0⟩ ⟨19723, 0⟩
        ⟨5, 0, 2, 1⟩).result.isAIGenerated = false :=
  c1_completion_error_falls_back wErrModel wFmt "Alice"
    (mkSummaryTask "Fix login redirect" "IN_PROGRESS" "HIGH") [] ⟨19723, 0⟩
    ⟨19716, 0⟩ ⟨19723, 0⟩ ⟨5, 0, 2, 1⟩ "Gemini API error" "Gemini API error" rfl rfl

/-- C5 (evaluating the code at the failing configuration): after two
`start()` calls with no intervening `stop()`, two live cron tasks
carry the daily expression, so each daily firing runs the batch twice
and each verified user's send is invoked twice — not at most once as
the claim requires.  A single `start()` from fresh state does give
exactly one. -/
theorem c5_double_start_double_sends :
    sendsPerUserPerDailyFiring startTwice.2 = 2
    ∧ ¬ sendsPerUserPerDailyFiring startTwice.2 ≤ 1
    ∧ sendsPerUserPerDailyFiring (SchedulerService.start freshScheduler emptyCron).2 = 1 := by
  decide

/-- C6 (amended): when the user id does not resolve at
report-generation time, `sendDailyReportEmail` / `sendWeeklyReportEmail`
propagate the generator's `'User not found'` error; the silent no-op
happens only when the user is found during generation but the second,
post-generation lookup finds nothing — then the call returns
successfully without invoking the mailer. -/
theorem c6_not_found_propagates (env env2 : Env) (usersAtSend : List User)
    (userId : String) (now : Date) (user : User)
    (hGen : env.users.find? (fun u => u.id == userId) = some user)
    (hSend : usersAtSend.find? (fun u => u.id == userId) = none)
    (hGen2 : env2.users.find? (fun u => u.id == userId) = none) :
    sendDailyReportEmail env usersAtSend userId now = .ok none
    ∧ sendWeeklyReportEmail env usersAtSend userId now = .ok none
    ∧ sendDailyReportEmail env2 usersAtSend userId now = .error "User not found"
    ∧ sendWeeklyReportEmail env2 usersAtSend userId now = .error "User not found" := by
  refine ⟨?_, ?_, ?_, ?_⟩ <;>
    simp [sendDailyReportEmail, sendWeeklyReportEmail, generateDailyReport,
      generateWeeklyReport, hGen, hSend, hGen2]

/-- Witness for C6 (amended) at concrete inputs: user `u1` present at
generation, absent at send time; and an environment with an empty user
table. -/
theorem c6_not_found_propagates_witness :
    sendDailyReportEmail c6EnvU1 [] "u1" ⟨20000, 0⟩ = .ok none
    ∧ sendWeeklyReportEmail c6EnvU1 [] "u1" ⟨20000, 0⟩ = .ok none
    ∧ sendDailyReportEmail envNoUsers [] "u1" ⟨20000, 0⟩ = .error "User not found"
    ∧ sendWeeklyReportEmail envNoUsers [] "u1" ⟨20000, 0⟩ = .error "User not found" :=
  c6_not_found_propagates c6EnvU1 envNoUsers [] "u1" ⟨20000, 0⟩ wUserU1 rfl rfl rfl

/-- C6 (counterexample to the claim as stated): for a user id that
cannot be found, the send operations raise `'User not found'` instead
of silently returning. -/
theorem c6_claim_counterexample :
    sendDailyReportEmail envNoUsers [] "u1" ⟨20000, 0⟩ = .error "User not found"
    ∧ sendWeeklyReportEmail envNoUsers [] "u1" ⟨20000, 0⟩ = .error "User not found" :=
  ⟨rfl, rfl⟩

/-- C7: the weekly report window runs from the end date minus seven
days truncated to start-of-day through the end date extended to
end-of-day, and the end boundary is millisecond-inclusive: a DONE task
whose `updatedAt` equals the window-end millisecond exactly is counted
in `completedCount`.  The last conjunct evaluates the full weekly
generator on such a boundary task. -/
theorem c7_weekly_window_end_inclusive (fmt : LocaleFormat) (projects : List Project)
    (rest : List Task) (E now : Date) (t : Task)
    (h1 : t.status = "DONE")
    (h2 : t.updatedAt = E.day * 86400000 + 86399999) :
    (E.subDays 7).setStartOfDay = ⟨E.day - 7, 0⟩
    ∧ E.setEndOfDay = ⟨E.day, 86399999⟩
    ∧ (computeReportData fmt projects (t :: rest)
          ((E.subDays 7).setStartOfDay) (E.setEndOfDay) now).completed
        = (computeReportData fmt projects rest
          ((E.subDays 7).setStartOfDay) (E.setEndOfDay) now).completed + 1
    ∧ (generateWeeklyReport c7Env "u1" (some c7End) c7Now).map (fun r => r.data.completed)
        = Except.ok 1 := by
  refine ⟨rfl, rfl, ?_, rfl⟩
  have hp : (t.status == "DONE"
      && (decide (((E.subDays 7).setStartOfDay).toMs ≤ t.updatedAt)
        && decide (t.updatedAt ≤ (E.setEndOfDay).toMs))) = true := by
    simp only [Date.toMs, Date.subDays, Date.setStartOfDay, Date.setEndOfDay, h1, h2,
      Bool.and_eq_true, beq_self_eq_true, decide_eq_true_eq, true_and]
    omega
  simp only [computeReportData, List.filter_cons, hp, if_true, List.length_cons]

/-- Witness for C7 at concrete inputs: the boundary task `c7Task`,
whose `updatedAt` is the window-end millisecond for the week ending on
`c7End`. -/
theorem c7_weekly_window_end_inclusive_witness :
    (c7End.subDays 7).setStartOfDay = ⟨c7End.day - 7, 0⟩
    ∧ c7End.setEndOfDay = ⟨c7End.day, 86399999⟩
    ∧ (computeReportData wFmt [] (c7Task :: [])
          ((c7End.subDays 7).setStartOfDay) (c7End.setEndOfDay) c7Now).completed
        = (computeReportData wFmt [] []
          ((c7End.subDays 7).setStartOfDay) (c7End.setEndOfDay) c7Now).completed + 1
    ∧ (generateWeeklyReport c7Env "u1" (some c7End) c7Now).map (fun r => r.data.completed)
        = Except.ok 1 :=
  c7_weekly_window_end_inclusive wFmt [] [] c7End c7Now c7Task (by decide) (by decide)

set_option maxHeartbeats 1600000 in
/-- C8: the daily fallback text equals the spec-described template —
opens with the formatted date; zero tasks give the none-assigned
sentence and no count clause; otherwise the total count, then the
completed, in-progress and attention clauses, each present exactly
when its count is positive.  Concretely: the zero-task text contains
"no tasks" and none of the optional clauses, and the 3-task example
(2 done, 1 in progress, 0 high/critical) contains "3 total", the
completed clause for 2 tasks and the in-progress clause, but no
attention clause. -/
theorem c8_daily_fallback_template (userName : String)
    (tasks : List TaskSummaryInput) (dateStr : String) :
    (generateFallbackDailySummary userName tasks dateStr).summary
        = specDescribedDailyFallback tasks dateStr
    ∧ containsSub (generateFallbackDailySummary "Alice" [] "Monday, January 1, 2024").summary
        "no tasks" = true
    ∧ containsSub (generateFallbackDailySummary "Alice" [] "Monday, January 1, 2024").summary
        "Great work" = false
    ∧ containsSub (generateFallbackDailySummary "Alice" [] "Monday, January 1, 2024").summary
        "currently in progress" = false
    ∧ containsSub (generateFallbackDailySummary "Alice" [] "Monday, January 1, 2024").summary
        "attention" = false
    ∧ containsSub (generateFallbackDailySummary "Alice" c8Tasks "Monday, January 1, 2024").summary
        "3 total" = true
    ∧ containsSub (generateFallbackDailySummary "Alice" c8Tasks "Monday, January 1, 2024").summary
        "Great work completing 2 tasks" = true
    ∧ containsSub (generateFallbackDailySummary "Alice" c8Tasks "Monday, January 1, 2024").summary
        "1 task is currently in progress" = true
    ∧ containsSub (generateFallbackDailySummary "Alice" c8Tasks "Monday, January 1, 2024").summary
        "attention" = false := by
  refine ⟨?_, by decide, by decide, by decide, by decide, by decide, by decide, by decide,
    by decide⟩
  simp only [generateFallbackDailySummary, specDescribedDailyFallback]
  split_ifs <;> simp only [String.append_assoc, String.append_empty]

set_option maxHeartbeats 1600000 in
/-- C9: the weekly fallback text equals the spec-described template —
opens with the date range; clauses for completed, created, in-progress
and overdue, in that order, each present exactly when its count is
positive; closing sentence: momentum-encouragement when completed = 0
and tasks exist, check-backlog when the task list is empty, none
otherwise.  Concretely: stats {created 5, completed 0, inProgress 2,
overdue 1} with a non-empty task list yield the overdue clause and the
momentum-encouragement closing sentence, and no completed clause. -/
theorem c9_weekly_fallback_template (userName : String)
    (tasks : List TaskSummaryInput) (startStr endStr : String) (stats : WeeklyStats) :
    (generateFallbackWeeklySummary userName tasks startStr endStr stats).summary
        = specDescribedWeeklyFallback tasks startStr endStr stats
    ∧ containsSub (generateFallbackWeeklySummary "Alice" c9Tasks "Jan 1" "Jan 8, 2024"
        ⟨5, 0, 2, 1⟩).summary "1 task is overdue and may need immediate attention" = true
    ∧ containsSub (generateFallbackWeeklySummary "Alice" c9Tasks "Jan 1" "Jan 8, 2024"
        ⟨5, 0, 2, 1⟩).summary "Focus on completing in-progress tasks to maintain momentum"
        = true
    ∧ containsSub (generateFallbackWeeklySummary "Alice" c9Tasks "Jan 1" "Jan 8, 2024"
        ⟨5, 0, 2, 1⟩).summary "You completed" = false := by
  refine ⟨?_, by decide, by decide, by decide⟩
  simp only [generateFallbackWeeklySummary, specDescribedWeeklyFallback]
  split_ifs <;> simp only [String.append_assoc, String.append_empty]

end TaskManager
